import Mathlib

/-!
# Verification of the FX-forward / term-structure core of this QuantLib fork

Shallow embedding of the C++ sources:

* `ql/forwardexchangerate.{hpp,cpp}`  — `ForwardExchangeRate` (spot + forward
  points, `chain`, `inverse`);
* `ql/termstructures/fxforwardpointtermstructure.hpp` —
  `InterpolatedFxForwardPointTermStructure` (`initialize`,
  `forwardPointsImpl`, query surface);
* `ql/termstructures/yield/overnightindexfutureratehelper.cpp` —
  `OvernightIndexFutureRateHelper` constructor;
* `ql/instruments/foreignexchangeforward.cpp` — `ForeignExchangeForward`
  constructor.

Modelling conventions:

* C++ `Decimal` / `Real` / `Time` (IEEE doubles) are modelled as `ℚ`, so the
  algebraic content of each routine is exact; `QuantLib::close` on times is
  modelled as exact equality.
* `Currency` is modelled by its ISO code (a string), `Date` by its serial
  number (an integer), `Period` (used only as an opaque tenor tag) by an
  integer.
* Functions that can `QL_FAIL` / `QL_REQUIRE` / `QL_ENSURE` return
  `Except String _`, with the error messages of the source.
* The `rateChain_` bookkeeping member of `ForwardExchangeRate` (a pair of
  shared pointers consulted only by `ForwardExchangeRate::exchange` on
  derived rates) is not modelled: no claim below reads it.  The `type_` tag
  is kept.
-/

namespace QLSpec

abbrev Currency := String

abbrev Decimal := ℚ

/-- The `ExchangeRate::Type` enum (`Direct` / `Derived`). -/
inductive RateType where
  | Direct : RateType
  | Derived : RateType
deriving DecidableEq, Repr

/-- Modelled from the spec: the `ExchangeRate` value type (source currency,
target currency, spot rate) lives in `ql/exchangerate.hpp`, which is not part
of the sources; the spec describes it as "a spot rate" entity supporting
"chaining (triangulating through a third currency) and inversion". -/
structure ExchangeRate where
  source : Currency
  target : Currency
  rate : Decimal
deriving DecidableEq, Repr

/-- The amount/currency pair `Money` (from `ql/money.hpp`, outside the
sources; the spec treats money value types as external collaborators). -/
structure Money where
  value : Decimal
  currency : Currency
deriving DecidableEq, Repr

namespace ExchangeRate

/-- Modelled from the spec: `ExchangeRate::inverse` (missing
`ql/exchangerate.hpp`) — inversion swaps source/target and takes the
reciprocal rate, exactly the behaviour that the spec and the
commented-out `result.rate_` lines of `ForwardExchangeRate::chain` imply. -/
def inverse (r : ExchangeRate) : ExchangeRate :=
  { source := r.target, target := r.source, rate := 1 / r.rate }

/-- Modelled from the spec: `ExchangeRate::chain` (missing
`ql/exchangerate.hpp`) — triangulation through the shared currency leg, with
the four sharing cases in the order the commented-out `result.rate_` lines of
`ForwardExchangeRate::chain` record (`r2.rate_/r1.rate_`,
`1.0/(r1.rate_*r2.rate_)`, `r1.rate_*r2.rate_`, `r1.rate_/r2.rate_`), failing
otherwise with the "not chainable" error the spec names. -/
def chain (r1 r2 : ExchangeRate) : Except String ExchangeRate :=
  if r1.source = r2.source then
    .ok { source := r1.target, target := r2.target, rate := r2.rate / r1.rate }
  else if r1.source = r2.target then
    .ok { source := r1.target, target := r2.source, rate := 1 / (r1.rate * r2.rate) }
  else if r1.target = r2.source then
    .ok { source := r1.source, target := r2.target, rate := r1.rate * r2.rate }
  else if r1.target = r2.target then
    .ok { source := r1.source, target := r2.source, rate := r1.rate / r2.rate }
  else
    .error "exchange rates not chainable"

/-- Modelled from the spec: `ExchangeRate::exchange` on a direct rate
(missing `ql/exchangerate.hpp`) — multiply when converting the source
currency, divide when converting the target currency, otherwise not
applicable.  This mirrors the `Direct` branch of
`ForwardExchangeRate::exchange` in `ql/forwardexchangerate.cpp`, which spells
out the same dispatch for the forward rate. -/
def exchange (r : ExchangeRate) (amount : Money) : Except String Money :=
  if amount.currency = r.source then
    .ok { value := amount.value * r.rate, currency := r.target }
  else if amount.currency = r.target then
    .ok { value := amount.value / r.rate, currency := r.source }
  else
    .error "exchange rate not applicable"

end ExchangeRate

/-- `ForwardExchangeRate` (`ql/forwardexchangerate.hpp`): a spot
`ExchangeRate` plus forward points and a tenor, with a `Direct`/`Derived`
tag. -/
structure ForwardExchangeRate where
  spotRate : ExchangeRate
  forwardPoints : Decimal
  tenor : ℤ
  type : RateType
deriving DecidableEq, Repr

namespace ForwardExchangeRate

/-- The public two-argument constructor
(`ForwardExchangeRate(spotRate, forwardPoints, tenor)`), which tags the rate
`Direct`. -/
def make (spotRate : ExchangeRate) (forwardPoints : Decimal) (tenor : ℤ) :
    ForwardExchangeRate :=
  { spotRate := spotRate, forwardPoints := forwardPoints, tenor := tenor,
    type := RateType.Direct }

/-- `ForwardExchangeRate::source()` — the source currency of the spot rate. -/
def source (r : ForwardExchangeRate) : Currency := r.spotRate.source

/-- `ForwardExchangeRate::target()` — the target currency of the spot rate. -/
def target (r : ForwardExchangeRate) : Currency := r.spotRate.target

/-- `ForwardExchangeRate::spotRate()` — the numeric spot rate. -/
def spotRateValue (r : ForwardExchangeRate) : Decimal := r.spotRate.rate

/-- `ForwardExchangeRate::forwardRate()` (`ql/forwardexchangerate.hpp`
lines 112–114): `spotRate_.rate() + forwardPoints_ / 10000.0`. -/
def forwardRate (r : ForwardExchangeRate) : Decimal :=
  r.spotRate.rate + r.forwardPoints / 10000

/-- `ForwardExchangeRate::inverse` (`ql/forwardexchangerate.cpp`
lines 81–86): builds the inverse spot rate, computes
`inverseFwd = 1.0 / r.forwardRate()`, and constructs the result with forward
points `(inverseFwd - inverseSpot.rate()) / 10000.0` (note: `/ 10000.0`, as
in the source). -/
def inverse (r : ForwardExchangeRate) : ForwardExchangeRate :=
  let inverseSpot := ExchangeRate.inverse r.spotRate
  let inverseFwd : Decimal := 1 / r.forwardRate
  make inverseSpot ((inverseFwd - inverseSpot.rate) / 10000) r.tenor

/-- `ForwardExchangeRate::chain` (`ql/forwardexchangerate.cpp` lines 47–79):
requires equal tenors, chains the spot rates (`ExchangeRate::chain`, which
raises the "not chainable" error when no leg is shared), tags the result
`Derived`, and fills the forward points by the four sharing cases, tried in
this order: same-source, source-target, target-source, same-target. -/
def chain (r1 r2 : ForwardExchangeRate) : Except String ForwardExchangeRate :=
  if r1.tenor ≠ r2.tenor then
    .error "forward exchange rates must have same tenor in order to chain"
  else
    match ExchangeRate.chain r1.spotRate r2.spotRate with
    | .error e => .error e
    | .ok chainedSpot =>
      if r1.source = r2.source then
        .ok { spotRate := chainedSpot,
              forwardPoints :=
                (r2.forwardRate / r1.forwardRate - r2.spotRateValue / r1.spotRateValue) *
                  10000,
              tenor := r1.tenor, type := RateType.Derived }
      else if r1.source = r2.target then
        .ok { spotRate := chainedSpot,
              forwardPoints :=
                (1 / (r1.forwardRate * r2.forwardRate) -
                  1 / (r1.spotRateValue * r2.spotRateValue)) * 10000,
              tenor := r1.tenor, type := RateType.Derived }
      else if r1.target = r2.source then
        .ok { spotRate := chainedSpot,
              forwardPoints :=
                r1.spotRate.rate * r2.forwardPoints + r2.spotRate.rate * r1.forwardPoints +
                  r1.forwardPoints * r2.forwardPoints / 10000,
              tenor := r1.tenor, type := RateType.Derived }
      else if r1.target = r2.target then
        .ok { spotRate := chainedSpot,
              forwardPoints :=
                (r1.forwardRate / r2.forwardRate - r1.spotRateValue / r2.spotRateValue) *
                  10000,
              tenor := r1.tenor, type := RateType.Derived }
      else
        .error "exchange rates not chainable"

end ForwardExchangeRate

/-- The EUR→USD 1.25 spot, 100 forward points, 3-month-tenor rate used as the
concrete probe below. -/
def probeRate : ForwardExchangeRate :=
  ForwardExchangeRate.make { source := "EUR", target := "USD", rate := 5 / 4 } 100 3

/-- The second leg (USD→JPY, spot 110, 50 points, same tenor) used to probe
the target-source chaining case. -/
def probeRate2 : ForwardExchangeRate :=
  ForwardExchangeRate.make { source := "USD", target := "JPY", rate := 110 } 50 3

/-- Modelled from the spec: the plain-linear interpolation scheme
(`ql/math/interpolations/linearinterpolation.hpp`, not among the sources) —
"plain-linear variant interpolates raw values"; on the segment that brackets
the query point the value is the affine blend of the two node values, points
left of the first node use the first segment and points right of the last
node use the last segment (the standard `locate` rule).  Nodes are
`(time, value)` pairs in increasing time order. -/
def linInterp : List (ℚ × ℚ) → ℚ → ℚ
  | [], _ => 0
  | [(_, v)], _ => v
  | (t1, v1) :: (t2, v2) :: rest, x =>
    if x ≤ t2 ∨ rest = [] then v1 + (x - t1) * (v2 - v1) / (t2 - t1)
    else linInterp ((t2, v2) :: rest) x

/-- Modelled from the spec: `Linear::requiredPoints` of the missing
interpolation header — "minimum point count depending on the scheme (e.g., 2
for linear)". -/
def linearRequiredPoints : ℕ := 2

/-- The state of a successfully built
`InterpolatedFxForwardPointTermStructure<Linear>`
(`ql/termstructures/fxforwardpointtermstructure.hpp`): the spot exchange
rate, reference date, input dates (`dates_`) and forward points
(`fwdPoints_`), the node times (`times_`) and node values (`data_`), and the
per-curve extrapolation toggle of the `TermStructure` base. -/
structure InterpolatedFxCurve where
  spotExchangeRate : ExchangeRate
  refDate : ℤ
  dates : List ℤ
  fwdPoints : List ℚ
  times : List ℚ
  data : List ℚ
  extrapolationAllowed : Bool
deriving DecidableEq, Repr

/-- The per-date loop of
`InterpolatedFxForwardPointTermStructure::initialize` (header lines 283–299):
starting from the seed `(refDate, time 0)`, each input date must be strictly
after the previous one, its year fraction is computed with the day counter of the
curve, and `QL_REQUIRE(!close(...))` rejects two dates collapsing to the
same time (`close` is modelled as exact equality on `ℚ`).  Returns the times
and node values contributed by the input dates. -/
def initLoop (yf : ℤ → ℚ) :
    ℤ → ℚ → List ℤ → List ℚ → Except String (List ℚ × List ℚ)
  | _, _, [], [] => .ok ([], [])
  | prevDate, prevTime, d :: ds, p :: ps =>
    if prevDate < d then
      if yf d = prevTime then
        .error "two dates correspond to the same time under the day count convention of this curve"
      else
        match initLoop yf d (yf d) ds ps with
        | .error e => .error e
        | .ok (ts, vs) => .ok (yf d :: ts, p :: vs)
    else .error "invalid date"
  | _, _, _, _ => .error "data count mismatch"

/-- `InterpolatedFxForwardPointTermStructure::initialize` together with the
public constructor (header lines 200–213 and 274–304): requires
`dates_.size() >= Interpolator::requiredPoints - 1` and
`data_.size() == fwdPoints_.size() + 1` (the constructor allocates
`dates.size() + 1` slots), seeds node 0 as `(time 0, value 0)`, then runs the
per-date loop; `yf refDate d` is `dayCounter().yearFraction(refDate, d)`.
The resulting curve keeps the inputs plus the node vectors, with
extrapolation disabled (the `TermStructure` default). -/
def fxInitialize (yf : ℤ → ℤ → ℚ) (refDate : ℤ) (spot : ExchangeRate)
    (dates : List ℤ) (fwdPoints : List ℚ) : Except String InterpolatedFxCurve :=
  if dates.length < linearRequiredPoints - 1 then
    .error "not enough input dates given"
  else if dates.length + 1 ≠ fwdPoints.length + 1 then
    .error "data count mismatch"
  else
    match initLoop (yf refDate) refDate 0 dates fwdPoints with
    | .error e => .error e
    | .ok (ts, vs) =>
      .ok { spotExchangeRate := spot, refDate := refDate, dates := dates,
            fwdPoints := fwdPoints, times := 0 :: ts, data := 0 :: vs,
            extrapolationAllowed := false }

/-- `TermStructure::maxTime()` for this curve: the time of `maxDate()`, which
`InterpolatedFxForwardPointTermStructure::maxDate` (header lines 306–311)
takes as `dates_.back()`; its year fraction is the last entry of `times_`. -/
def InterpolatedFxCurve.maxTime (c : InterpolatedFxCurve) : ℚ :=
  c.times.getLastD 0

/-- `InterpolatedFxForwardPointTermStructure::forwardPointsImpl` (header
lines 343–351): interpolate for `t <= times_.back()`, otherwise return
`data_.back()` (constant extrapolation). -/
def InterpolatedFxCurve.forwardPointsImpl (c : InterpolatedFxCurve) (t : ℚ) : ℚ :=
  if t ≤ c.times.getLastD 0 then linInterp (c.times.zip c.data) t
  else c.data.getLastD 0

/-- Modelled from the spec: `TermStructure::checkRange` (the missing
`ql/termstructure.hpp`) — "Extrapolation beyond `maxDate()` is disabled by
default; an explicit `enableExtrapolation()` toggle (process-wide or
per-curve flag) must be set before queries past the last node succeed,
otherwise fails with `ExtrapolationError`"; negative times are likewise
rejected. -/
def InterpolatedFxCurve.checkRange (c : InterpolatedFxCurve) (t : ℚ)
    (extrapolate : Bool) : Except String Unit :=
  if t < 0 then .error "negative time given"
  else if ¬(extrapolate = true ∨ c.extrapolationAllowed = true) ∧ c.maxTime < t then
    .error "time is past max curve time"
  else .ok ()

/-- `FxForwardPointTermStructure::forwardPoints(Time, bool)` (header lines
183–186): `checkRange(t, extrapolate); return forwardPointsImpl(t);`. -/
def InterpolatedFxCurve.forwardPoints (c : InterpolatedFxCurve) (t : ℚ)
    (extrapolate : Bool) : Except String ℚ :=
  match c.checkRange t extrapolate with
  | .error e => .error e
  | .ok _ => .ok (c.forwardPointsImpl t)

/-- `FxForwardPointTermStructure::forwardExchangeRate(Time, bool)` (header
lines 193–197): reads `forwardPointsImpl(t)` directly — no `checkRange`, the
`extrapolate` argument is never consulted — and wraps the spot rate and the
interpolated points into a `ForwardExchangeRate` with a default-constructed
(`Period()`, here tenor 0) tenor. -/
def InterpolatedFxCurve.forwardExchangeRate (c : InterpolatedFxCurve) (t : ℚ)
    (_extrapolate : Bool) : Except String ForwardExchangeRate :=
  .ok (ForwardExchangeRate.make c.spotExchangeRate (c.forwardPointsImpl t) 0)

/-- The date bookkeeping of `OvernightIndexFutureRateHelper`
(`ql/termstructures/yield/overnightindexfutureratehelper.cpp` lines 47–64):
the stored quote and the `earliestDate_`/`latestDate_` members. -/
structure OvernightIndexFutureRateHelper where
  quote : ℚ
  earliestDate : ℤ
  latestDate : ℤ
deriving DecidableEq, Repr

/-- The `OvernightIndexFutureRateHelper` constructor (source lines 47–64): it
builds the underlying future and then sets `earliestDate_ = valueDate` and
`latestDate_ = maturityDate`, with no requirement relating the two dates. -/
def mkOvernightIndexFutureRateHelper (price : ℚ) (valueDate maturityDate : ℤ) :
    OvernightIndexFutureRateHelper :=
  { quote := price, earliestDate := valueDate, latestDate := maturityDate }

/-- The members of `ForeignExchangeForward` that its constructor fills
(`ql/instruments/foreignexchangeforward.cpp` lines 58–75). -/
structure ForeignExchangeForward where
  deliveryDate : ℤ
  baseNotionalAmount : Money
  termNotionalAmount : Money
  termCurrency : Currency
  contractAllInRate : ExchangeRate
deriving DecidableEq, Repr

/-- The `ForeignExchangeForward` constructor (source lines 58–75): the member
initializer computes `termNotionalAmount_ = contractAllInRate.exchange(...)`
(which already fails when the base notional's currency matches neither leg),
then `QL_ENSURE` re-checks that the base currency is one of the legs of the rate,
and the stored rate is the given rate when the base currency is its source,
else its inverse. -/
def mkForeignExchangeForward (deliveryDate : ℤ) (baseNotionalAmount : Money)
    (contractAllInRate : ExchangeRate) : Except String ForeignExchangeForward :=
  match contractAllInRate.exchange baseNotionalAmount with
  | .error e => .error e
  | .ok termNotional =>
    if baseNotionalAmount.currency = contractAllInRate.source ∨
        baseNotionalAmount.currency = contractAllInRate.target then
      .ok { deliveryDate := deliveryDate,
            baseNotionalAmount := baseNotionalAmount,
            termNotionalAmount := termNotional,
            termCurrency :=
              if baseNotionalAmount.currency = contractAllInRate.source then
                contractAllInRate.target
              else contractAllInRate.source,
            contractAllInRate :=
              if baseNotionalAmount.currency = contractAllInRate.source then
                contractAllInRate
              else ExchangeRate.inverse contractAllInRate }
    else .error "currency of base notional differs from all in rate currencies"

/-- `ForeignExchangeForward::arguments::validate` (source lines 154–157):
requires the base notional's currency to equal the stored all-in rate's
source currency. -/
def ForeignExchangeForward.argumentsValidate (f : ForeignExchangeForward) :
    Except String Unit :=
  if f.baseNotionalAmount.currency = f.contractAllInRate.source then .ok ()
  else .error "contract all-in rate should have same base currency as notionnal amount"

/-- The Actual/360 day counter:
`yearFraction(d1, d2) = (serial(d2) - serial(d1)) / 360`. -/
def yfAct360 : ℤ → ℤ → ℚ := fun r d => ((d - r : ℤ) : ℚ) / 360

/-- EUR→USD spot 1.25, used by the concrete curves below. -/
def spotEURUSD : ExchangeRate := { source := "EUR", target := "USD", rate := 5 / 4 }

/-- The curve built from reference date 0, input dates 180 and 360 (half a
year and one year under Actual/360) and forward points 30 and 50. -/
def cWitness : InterpolatedFxCurve :=
  { spotExchangeRate := spotEURUSD, refDate := 0, dates := [180, 360],
    fwdPoints := [30, 50], times := [0, 1/2, 1], data := [0, 30, 50],
    extrapolationAllowed := false }

/-- The single-date curve (date 360, forward points 50) used to probe the
query surface past its last node at time 1. -/
def c360 : InterpolatedFxCurve :=
  { spotExchangeRate := spotEURUSD, refDate := 0, dates := [360],
    fwdPoints := [50], times := [0, 1], data := [0, 50],
    extrapolationAllowed := false }

/-- A successful per-date loop returns exactly the year fractions of the
input dates paired with the supplied forward-points values. -/
lemma initLoop_ok_eq (yf : ℤ → ℚ) :
    ∀ (pd : ℤ) (pt : ℚ) (ds : List ℤ) (ps ts vs : List ℚ),
      initLoop yf pd pt ds ps = .ok (ts, vs) → ts = ds.map yf ∧ vs = ps := by
  intro pd pt ds
  induction ds generalizing pd pt with
  | nil =>
    intro ps ts vs h
    cases ps with
    | nil => simp [initLoop] at h; simp [h.1, h.2]
    | cons p ps' => simp [initLoop] at h
  | cons d ds' ih =>
    intro ps ts vs h
    cases ps with
    | nil => simp [initLoop] at h
    | cons p ps' =>
      simp only [initLoop] at h
      split at h
      · split at h
        · exact absurd h (by simp)
        · split at h
          · exact absurd h (by simp)
          · rename_i ts' vs' heq
            obtain ⟨h1, h2⟩ := ih d (yf d) ps' ts' vs' heq
            simp only [Except.ok.injEq, Prod.mk.injEq] at h
            simp [← h.1, ← h.2, h1, h2]
      · exact absurd h (by simp)

/-- A successful per-date loop implies the dates were strictly increasing and
— when the day-count function is monotone and dominates the previous time on
dates after the previous date — the produced times, prefixed with the
previous time, are strictly increasing too. -/
lemma initLoop_chains (yf : ℤ → ℚ)
    (hmono : ∀ d1 d2 : ℤ, d1 ≤ d2 → yf d1 ≤ yf d2) :
    ∀ (pd : ℤ) (pt : ℚ) (ds : List ℤ) (ps ts vs : List ℚ),
      (∀ d : ℤ, pd < d → pt ≤ yf d) →
      initLoop yf pd pt ds ps = .ok (ts, vs) →
      List.Chain' (· < ·) (pd :: ds) ∧ List.Chain' (· < ·) (pt :: ts) := by
  intro pd pt ds
  induction ds generalizing pd pt with
  | nil =>
    intro ps ts vs _ h
    cases ps with
    | nil => simp [initLoop] at h; simp [h.1]
    | cons p ps' => simp [initLoop] at h
  | cons d ds' ih =>
    intro ps ts vs hinv h
    cases ps with
    | nil => simp [initLoop] at h
    | cons p ps' =>
      simp only [initLoop] at h
      split at h
      · rename_i hlt
        split at h
        · exact absurd h (by simp)
        · rename_i hne
          split at h
          · exact absurd h (by simp)
          · rename_i ts' vs' heq
            have hinv' : ∀ d' : ℤ, d < d' → yf d ≤ yf d' := fun d' hd' =>
              hmono d d' (le_of_lt hd')
            obtain ⟨hc1, hc2⟩ := ih d (yf d) ps' ts' vs' hinv' heq
            simp only [Except.ok.injEq, Prod.mk.injEq] at h
            have hptd : pt < yf d := lt_of_le_of_ne (hinv d hlt) (fun hh => hne hh.symm)
            constructor
            · exact List.chain'_cons.mpr ⟨hlt, hc1⟩
            · rw [← h.1]
              exact List.chain'_cons.mpr ⟨hptd, hc2⟩
      · exact absurd h (by simp)

/-- Shape of a successfully initialized curve: the construction record keeps
the inputs, prepends the `(0, 0)` seed node, takes the node times from the
day-count function and the node values verbatim from the forward points, and
leaves extrapolation disabled. -/
lemma fxInitialize_ok_shape (yf : ℤ → ℤ → ℚ) (refDate : ℤ) (spot : ExchangeRate)
    (dates : List ℤ) (ps : List ℚ) (c : InterpolatedFxCurve)
    (h : fxInitialize yf refDate spot dates ps = .ok c) :
    c = { spotExchangeRate := spot, refDate := refDate, dates := dates,
          fwdPoints := ps, times := 0 :: dates.map (yf refDate),
          data := 0 :: ps, extrapolationAllowed := false } ∧
      1 ≤ dates.length ∧ dates.length = ps.length ∧
      initLoop (yf refDate) refDate 0 dates ps = .ok (dates.map (yf refDate), ps) := by
  unfold fxInitialize at h
  by_cases h1 : dates.length < linearRequiredPoints - 1
  · rw [if_pos h1] at h; exact absurd h (by simp)
  · rw [if_neg h1] at h
    by_cases h2 : dates.length + 1 ≠ ps.length + 1
    · rw [if_pos h2] at h; exact absurd h (by simp)
    · rw [if_neg h2] at h
      cases heq : initLoop (yf refDate) refDate 0 dates ps with
      | error e => rw [heq] at h; exact absurd h (by simp)
      | ok tv =>
        obtain ⟨ts, vs⟩ := tv
        rw [heq] at h
        obtain ⟨ht, hv⟩ := initLoop_ok_eq (yf refDate) refDate 0 dates ps ts vs heq
        simp only [Except.ok.injEq] at h
        subst ht hv
        refine ⟨h.symm, ?_, ?_, rfl⟩
        · simp only [linearRequiredPoints] at h1; omega
        · omega

/-- `getLastD` ignores the head of a list with a nonempty tail. -/
lemma getLastD_cons_of_ne_nil {a d : ℚ} {l : List ℚ} (h : l ≠ []) :
    (a :: l).getLastD d = l.getLastD d := by
  cases l with
  | nil => exact absurd rfl h
  | cons b t => simp [List.getLastD]

/-- In a strictly increasing list every entry is at most the last entry. -/
lemma chain'_getD_le_getLastD :
    ∀ (l : List ℚ), List.Chain' (· < ·) l → ∀ i : ℕ, i < l.length →
      l.getD i 0 ≤ l.getLastD 0 := by
  intro l
  induction l with
  | nil => intro _ i hi; simp at hi
  | cons a l' ih =>
    intro hc i hi
    cases l' with
    | nil =>
      cases i with
      | zero => simp [List.getLastD]
      | succ j => simp at hi
    | cons b l'' =>
      have hc' : List.Chain' (· < ·) (b :: l'') := hc.tail
      have hab : a < b := (List.chain'_cons.mp hc).1
      rw [getLastD_cons_of_ne_nil (by simp)]
      cases i with
      | zero =>
        simp only [List.getD_cons_zero]
        calc a ≤ b := le_of_lt hab
        _ = (b :: l'').getD 0 0 := rfl
        _ ≤ (b :: l'').getLastD 0 := ih hc' 0 (by simp)
      | succ j =>
        simp only [List.getD_cons_succ]
        exact ih hc' j (by simpa using hi)

/-- Linear interpolation over strictly increasing node times reproduces each
node value at that node time. -/
lemma linInterp_at_node :
    ∀ (ts vs : List ℚ), List.Chain' (· < ·) ts → ts.length = vs.length →
      ∀ i : ℕ, i < ts.length →
        linInterp (ts.zip vs) (ts.getD i 0) = vs.getD i 0 := by
  intro ts
  induction ts with
  | nil => intro vs _ _ i hi; simp at hi
  | cons t1 ts' ih =>
    intro vs hc hlen i hi
    cases vs with
    | nil => simp at hlen
    | cons v1 vs' =>
      cases ts' with
      | nil =>
        cases i with
        | zero => simp [linInterp]
        | succ j => simp at hi
      | cons t2 ts'' =>
        cases vs' with
        | nil => simp at hlen
        | cons v2 vs'' =>
          have h12 : t1 < t2 := (List.chain'_cons.mp hc).1
          have hc' : List.Chain' (· < ·) (t2 :: ts'') := hc.tail
          have hne : t2 - t1 ≠ 0 := sub_ne_zero.mpr (ne_of_gt h12)
          cases i with
          | zero =>
            simp only [List.getD_cons_zero, List.zip_cons_cons, linInterp]
            rw [if_pos (Or.inl (le_of_lt h12))]
            ring
          | succ j =>
            simp only [List.getD_cons_succ, List.getD_cons_zero,
              List.zip_cons_cons, linInterp]
            cases j with
            | zero =>
              simp only [List.getD_cons_zero]
              rw [if_pos (Or.inl le_rfl)]
              field_simp
            | succ k =>
              simp only [List.getD_cons_succ]
              have hk : k < ts''.length := by simpa using hi
              have hx : t2 < ts''.getD k 0 := by
                rw [List.getD_eq_getElem ts'' 0 hk]
                have hp := List.chain'_iff_pairwise.mp hc'
                have h0 := List.pairwise_iff_getElem.mp hp 0 (k + 1) (by simp)
                  (by simpa using Nat.succ_lt_succ hk) (Nat.succ_pos k)
                simpa using h0
              have hzip : List.zipWith Prod.mk ts'' vs'' ≠ [] := by
                intro hnil
                rcases List.zipWith_eq_nil_iff.mp hnil with h | h
                · rw [h] at hk; simp at hk
                · rw [h] at hlen
                  simp only [List.length_cons, List.length_nil] at hlen
                  omega
              rw [if_neg (by push_neg; exact ⟨hx, hzip⟩)]
              have hstep := ih (v2 :: vs'') hc' (by simpa using hlen) (k + 1)
                (by simp; omega)
              simpa using hstep

lemma cWitness_ok :
    fxInitialize yfAct360 0 spotEURUSD [180, 360] [30, 50] = .ok cWitness := by
  norm_num [fxInitialize, initLoop, linearRequiredPoints, yfAct360, cWitness]

lemma c360_ok : fxInitialize yfAct360 0 spotEURUSD [360] [50] = .ok c360 := by
  norm_num [fxInitialize, initLoop, linearRequiredPoints, yfAct360, c360]

lemma yfAct360_mono : ∀ d1 d2 : ℤ, d1 ≤ d2 → yfAct360 0 d1 ≤ yfAct360 0 d2 := by
  intro d1 d2 h
  unfold yfAct360
  have hc : ((d1 - 0 : ℤ) : ℚ) ≤ ((d2 - 0 : ℤ) : ℚ) := by exact_mod_cast by omega
  exact (div_le_div_iff_of_pos_right (by norm_num : (0:ℚ) < 360)).mpr hc

lemma yfAct360_nonneg : ∀ d : ℤ, 0 < d → 0 ≤ yfAct360 0 d := by
  intro d h
  unfold yfAct360
  have hc : (0 : ℚ) ≤ ((d - 0 : ℤ) : ℚ) := by exact_mod_cast by omega
  exact div_nonneg hc (by norm_num)

/-- C1.  `ForwardExchangeRate::inverse` does swap source and target, but it
divides the reciprocal-rate difference by 10,000 instead of multiplying, so
on the EUR→USD rate with spot 5/4 and 100 forward points the inverse carries
forward points `-1/1575000` instead of the points-convention value
`(1/(63/50) - 1/(5/4)) * 10000 = -4000/63`, and its all-in forward rate is
`12599999999/15750000000` (≈ the inverse spot 0.8), not the reciprocal all-in
rate `50/63`. -/
theorem inverse_forwardRate_divergence :
    (ForwardExchangeRate.inverse probeRate).source = "USD" ∧
    (ForwardExchangeRate.inverse probeRate).target = "EUR" ∧
    (ForwardExchangeRate.inverse probeRate).forwardPoints = -1 / 1575000 ∧
    (ForwardExchangeRate.inverse probeRate).forwardPoints ≠
      (1 / probeRate.forwardRate - 1 / probeRate.spotRateValue) * 10000 ∧
    (ForwardExchangeRate.inverse probeRate).forwardRate =
      12599999999 / 15750000000 ∧
    (ForwardExchangeRate.inverse probeRate).forwardRate ≠ 1 / probeRate.forwardRate := by
  refine ⟨rfl, rfl, ?_, ?_, ?_, ?_⟩ <;>
    norm_num [probeRate, ForwardExchangeRate.inverse, ForwardExchangeRate.forwardRate,
      ForwardExchangeRate.make, ForwardExchangeRate.spotRateValue, ExchangeRate.inverse]

/-- C2.  Chaining the EUR→USD rate (spot 5/4, 100 points) with its own
`inverse` succeeds and produces a USD→USD rate with spot exactly 1, but —
because `inverse` divides the forward points by 10,000 instead of
multiplying — the chained forward points are `-999999990000/12599999999`
(≈ -79.37, not ≈ 0) and the chained all-in forward rate is
`12500000000/12599999999` ≈ 0.99206, which differs from 1 by more than
1/200: far outside any numerical tolerance. -/
theorem chain_inverse_roundtrip_divergence :
    ForwardExchangeRate.chain probeRate (ForwardExchangeRate.inverse probeRate) =
      .ok { spotRate := { source := "USD", target := "USD", rate := 1 },
            forwardPoints := -999999990000 / 12599999999,
            tenor := 3, type := RateType.Derived } ∧
    (1 : ℚ) - 12500000000 / 12599999999 > 1 / 200 := by
  constructor
  · norm_num +decide [probeRate, ForwardExchangeRate.chain,
      ForwardExchangeRate.inverse, ForwardExchangeRate.forwardRate,
      ForwardExchangeRate.make, ForwardExchangeRate.source,
      ForwardExchangeRate.target, ForwardExchangeRate.spotRateValue,
      ExchangeRate.inverse, ExchangeRate.chain]
  · norm_num

/-- C5.  `ForwardExchangeRate::chain` fails whenever the tenors differ; with
equal tenors it fails with the "not chainable" error exactly when the two
rates share no currency leg; and in the four sharing cases (tried in source order: same-source, source-target, target-source, same-target) it
returns the `Derived` cross rate whose chained spot and forward points are
given by the formula of that case. -/
theorem chain_case_analysis (r1 r2 : ForwardExchangeRate) :
    (r1.tenor ≠ r2.tenor →
      ForwardExchangeRate.chain r1 r2 =
        .error "forward exchange rates must have same tenor in order to chain") ∧
    (r1.tenor = r2.tenor → r1.source ≠ r2.source → r1.source ≠ r2.target →
      r1.target ≠ r2.source → r1.target ≠ r2.target →
      ForwardExchangeRate.chain r1 r2 = .error "exchange rates not chainable") ∧
    (r1.tenor = r2.tenor → r1.source = r2.source →
      ForwardExchangeRate.chain r1 r2 =
        .ok { spotRate := { source := r1.target, target := r2.target,
                            rate := r2.spotRate.rate / r1.spotRate.rate },
              forwardPoints :=
                (r2.forwardRate / r1.forwardRate -
                  r2.spotRateValue / r1.spotRateValue) * 10000,
              tenor := r1.tenor, type := RateType.Derived }) ∧
    (r1.tenor = r2.tenor → r1.source ≠ r2.source → r1.source = r2.target →
      ForwardExchangeRate.chain r1 r2 =
        .ok { spotRate := { source := r1.target, target := r2.source,
                            rate := 1 / (r1.spotRate.rate * r2.spotRate.rate) },
              forwardPoints :=
                (1 / (r1.forwardRate * r2.forwardRate) -
                  1 / (r1.spotRateValue * r2.spotRateValue)) * 10000,
              tenor := r1.tenor, type := RateType.Derived }) ∧
    (r1.tenor = r2.tenor → r1.source ≠ r2.source → r1.source ≠ r2.target →
      r1.target = r2.source →
      ForwardExchangeRate.chain r1 r2 =
        .ok { spotRate := { source := r1.source, target := r2.target,
                            rate := r1.spotRate.rate * r2.spotRate.rate },
              forwardPoints :=
                r1.spotRate.rate * r2.forwardPoints +
                  r2.spotRate.rate * r1.forwardPoints +
                  r1.forwardPoints * r2.forwardPoints / 10000,
              tenor := r1.tenor, type := RateType.Derived }) ∧
    (r1.tenor = r2.tenor → r1.source ≠ r2.source → r1.source ≠ r2.target →
      r1.target ≠ r2.source → r1.target = r2.target →
      ForwardExchangeRate.chain r1 r2 =
        .ok { spotRate := { source := r1.source, target := r2.source,
                            rate := r1.spotRate.rate / r2.spotRate.rate },
              forwardPoints :=
                (r1.forwardRate / r2.forwardRate -
                  r1.spotRateValue / r2.spotRateValue) * 10000,
              tenor := r1.tenor, type := RateType.Derived }) := by
  unfold ForwardExchangeRate.chain ExchangeRate.chain
  unfold ForwardExchangeRate.source ForwardExchangeRate.target
  refine ⟨fun ht => ?_, fun ht h1 h2 h3 h4 => ?_, fun ht h1 => ?_,
    fun ht h1 h2 => ?_, fun ht h1 h2 h3 => ?_, fun ht h1 h2 h3 h4 => ?_⟩
  · simp [ht]
  · simp [ht, h1, h2, h3, h4]
  · simp [ht, h1]
  · simp only [ht]
    simp only [if_neg h1, if_pos h2]
    simp
  · simp only [ht]
    simp only [if_neg h1, if_neg h2, if_pos h3]
    simp
  · simp only [ht]
    simp only [if_neg h1, if_neg h2, if_neg h3, if_pos h4]
    simp

/-- Witness for C5: chaining the EUR→USD rate (spot 5/4, 100 points) with the
USD→JPY rate (spot 110, 50 points) at equal tenor hits the target-source
case and yields the EUR→JPY derived rate with spot 275/2 and forward points
`5/4 * 50 + 110 * 100 + 100 * 50 / 10000 = 11063`. -/
theorem chain_case_analysis_witness :
    ForwardExchangeRate.chain probeRate probeRate2 =
      .ok { spotRate := { source := "EUR", target := "JPY", rate := 275 / 2 },
            forwardPoints := 11063,
            tenor := 3, type := RateType.Derived } := by
  have h := (chain_case_analysis probeRate probeRate2).2.2.2.2.1
    rfl (by decide) (by decide) rfl
  rw [h]
  norm_num [probeRate, probeRate2, ForwardExchangeRate.make,
    ForwardExchangeRate.source, ForwardExchangeRate.target,
    ForwardExchangeRate.spotRateValue, ForwardExchangeRate.forwardRate]

/-- C6.  When the day-count function is monotone and nonnegative past the
reference date (as every QuantLib day counter is), a successful
`initialize` implies the input dates were strictly increasing starting after
the reference date and the node times of the curve are strictly increasing;
contrapositively, two non-increasing consecutive input dates, or two dates
collapsing to the same year fraction, make construction fail hard. -/
theorem fxInitialize_strict_node_times (yf : ℤ → ℤ → ℚ) (refDate : ℤ)
    (spot : ExchangeRate) (dates : List ℤ) (ps : List ℚ) (c : InterpolatedFxCurve)
    (hmono : ∀ d1 d2 : ℤ, d1 ≤ d2 → yf refDate d1 ≤ yf refDate d2)
    (hpos : ∀ d : ℤ, refDate < d → 0 ≤ yf refDate d)
    (hok : fxInitialize yf refDate spot dates ps = .ok c) :
    List.Chain' (· < ·) (refDate :: dates) ∧ List.Chain' (· < ·) c.times := by
  obtain ⟨hc, _, _, hloop⟩ :=
    fxInitialize_ok_shape yf refDate spot dates ps c hok
  obtain ⟨h1, h2⟩ := initLoop_chains (yf refDate) hmono refDate 0 dates ps
    (dates.map (yf refDate)) ps hpos hloop
  exact ⟨h1, by rw [hc]; exact h2⟩

/-- Witness for C6: the Actual/360 curve on dates 180 and 360 is accepted and
its node times `[0, 1/2, 1]` are strictly increasing. -/
theorem fxInitialize_strict_node_times_witness :
    List.Chain' (· < ·) ((0:ℤ) :: [180, 360]) ∧
      List.Chain' (· < ·) cWitness.times :=
  fxInitialize_strict_node_times yfAct360 0 spotEURUSD [180, 360] [30, 50]
    cWitness yfAct360_mono yfAct360_nonneg cWitness_ok

/-- C7.  On a successfully constructed curve (with a monotone, nonnegative
day-count function) the interpolated forward points at the year fraction of
input date `i` are exactly the supplied forward-points value `i` — exact over
`ℚ`, hence within floating-point tolerance in the C++ doubles. -/
theorem forwardPoints_node_roundtrip (yf : ℤ → ℤ → ℚ) (refDate : ℤ)
    (spot : ExchangeRate) (dates : List ℤ) (ps : List ℚ) (c : InterpolatedFxCurve)
    (hmono : ∀ d1 d2 : ℤ, d1 ≤ d2 → yf refDate d1 ≤ yf refDate d2)
    (hpos : ∀ d : ℤ, refDate < d → 0 ≤ yf refDate d)
    (hok : fxInitialize yf refDate spot dates ps = .ok c)
    (i : ℕ) (hi : i < dates.length) :
    c.forwardPointsImpl (yf refDate (dates.getD i 0)) = ps.getD i 0 := by
  obtain ⟨hc, hlen1, hlen2, hloop⟩ :=
    fxInitialize_ok_shape yf refDate spot dates ps c hok
  obtain ⟨_, hchain⟩ := initLoop_chains (yf refDate) hmono refDate 0 dates ps
    (dates.map (yf refDate)) ps hpos hloop
  subst hc
  simp only [InterpolatedFxCurve.forwardPointsImpl]
  have hnode : (0 :: dates.map (yf refDate)).getD (i + 1) 0 =
      yf refDate (dates.getD i 0) := by
    simp only [List.getD_cons_succ]
    rw [List.getD_eq_getElem _ _ (by simpa using hi), List.getElem_map,
      List.getD_eq_getElem _ _ hi]
  have hle : yf refDate (dates.getD i 0) ≤ (0 :: dates.map (yf refDate)).getLastD 0 := by
    rw [← hnode]
    exact chain'_getD_le_getLastD _ hchain (i + 1) (by simp; omega)
  rw [if_pos hle, ← hnode]
  have hroundtrip := linInterp_at_node (0 :: dates.map (yf refDate)) (0 :: ps)
    hchain (by simp [hlen2]) (i + 1) (by simp; omega)
  rw [hroundtrip]
  simp

/-- Witness for C7: on the Actual/360 curve with nodes at dates 180 and 360,
the interpolated forward points at time 1/2 (date 180) are the supplied 30. -/
theorem forwardPoints_node_roundtrip_witness :
    cWitness.forwardPointsImpl (1/2) = 30 := by
  have h := forwardPoints_node_roundtrip yfAct360 0 spotEURUSD [180, 360]
    [30, 50] cWitness yfAct360_mono yfAct360_nonneg cWitness_ok 0 (by norm_num)
  norm_num [yfAct360] at h
  exact h

/-- C8.  A successfully constructed curve has the seed node `(0, 0)`
prepended before the nodes derived from the inputs: its times are
`0 :: yearFraction(dates)` and its values `0 :: forwardPoints`; consequently
(for a monotone, nonnegative day counter) the forward points at the reference
date are 0 and the forward exchange rate queried at time 0 has all-in forward
rate equal to the spot rate. -/
theorem fxInitialize_seed_node (yf : ℤ → ℤ → ℚ) (refDate : ℤ)
    (spot : ExchangeRate) (dates : List ℤ) (ps : List ℚ) (c : InterpolatedFxCurve)
    (hmono : ∀ d1 d2 : ℤ, d1 ≤ d2 → yf refDate d1 ≤ yf refDate d2)
    (hpos : ∀ d : ℤ, refDate < d → 0 ≤ yf refDate d)
    (hok : fxInitialize yf refDate spot dates ps = .ok c) :
    c.times = 0 :: dates.map (yf refDate) ∧
    c.data = 0 :: ps ∧
    c.forwardPointsImpl 0 = 0 ∧
    (c.forwardExchangeRate 0 false).map ForwardExchangeRate.forwardRate =
      .ok spot.rate := by
  obtain ⟨hc, hlen1, hlen2, hloop⟩ :=
    fxInitialize_ok_shape yf refDate spot dates ps c hok
  obtain ⟨_, hchain⟩ := initLoop_chains (yf refDate) hmono refDate 0 dates ps
    (dates.map (yf refDate)) ps hpos hloop
  subst hc
  have hfpi : InterpolatedFxCurve.forwardPointsImpl
      { spotExchangeRate := spot, refDate := refDate, dates := dates,
        fwdPoints := ps, times := 0 :: dates.map (yf refDate),
        data := 0 :: ps, extrapolationAllowed := false } 0 = 0 := by
    simp only [InterpolatedFxCurve.forwardPointsImpl]
    have hle : (0:ℚ) ≤ (0 :: dates.map (yf refDate)).getLastD 0 := by
      have := chain'_getD_le_getLastD (0 :: dates.map (yf refDate)) hchain 0
        (by simp)
      simpa using this
    rw [if_pos hle]
    have hroundtrip := linInterp_at_node (0 :: dates.map (yf refDate)) (0 :: ps)
      hchain (by simp [hlen2]) 0 (by simp)
    simpa using hroundtrip
  refine ⟨rfl, rfl, hfpi, ?_⟩
  simp only [InterpolatedFxCurve.forwardExchangeRate, hfpi, Except.map,
    ForwardExchangeRate.make, ForwardExchangeRate.forwardRate]
  norm_num

/-- Witness for C8: the Actual/360 curve on dates 180/360 has times
`[0, 1/2, 1]`, data `[0, 30, 50]`, zero forward points at time 0, and its
forward exchange rate at the reference date carries the spot rate 5/4. -/
theorem fxInitialize_seed_node_witness :
    cWitness.times = 0 :: [180, 360].map (yfAct360 0) ∧
    cWitness.data = 0 :: [30, 50] ∧
    cWitness.forwardPointsImpl 0 = 0 ∧
    (cWitness.forwardExchangeRate 0 false).map ForwardExchangeRate.forwardRate =
      .ok (5/4) := by
  have h := fxInitialize_seed_node yfAct360 0 spotEURUSD [180, 360] [30, 50]
    cWitness yfAct360_mono yfAct360_nonneg cWitness_ok
  simpa [spotEURUSD] using h

/-- C10.  On any successfully constructed curve, the internal evaluation at a
time strictly past the last node time returns exactly the last supplied
forward-points value — the `data_.back()` constant-extrapolation branch —
and the forward-points list is necessarily nonempty. -/
theorem forwardPointsImpl_flat_extrapolation (yf : ℤ → ℤ → ℚ) (refDate : ℤ)
    (spot : ExchangeRate) (dates : List ℤ) (ps : List ℚ) (c : InterpolatedFxCurve)
    (t : ℚ) (hok : fxInitialize yf refDate spot dates ps = .ok c)
    (ht : c.times.getLastD 0 < t) :
    c.forwardPointsImpl t = ps.getLastD 0 ∧ ps ≠ [] := by
  obtain ⟨hc, hlen1, hlen2, _⟩ :=
    fxInitialize_ok_shape yf refDate spot dates ps c hok
  have hps : ps ≠ [] := by
    intro hnil
    rw [hnil] at hlen2
    simp only [List.length_nil] at hlen2
    omega
  refine ⟨?_, hps⟩
  rw [hc] at ht ⊢
  simp only [InterpolatedFxCurve.forwardPointsImpl]
  rw [if_neg (not_le.mpr ht)]
  exact getLastD_cons_of_ne_nil hps

/-- Witness for C10: querying the dates-180/360 curve at time 2 (past the
last node time 1) returns the last forward-points value 50. -/
theorem forwardPointsImpl_flat_extrapolation_witness :
    cWitness.forwardPointsImpl 2 = ([30, 50] : List ℚ).getLastD 0 ∧
      ([30, 50] : List ℚ) ≠ [] :=
  forwardPointsImpl_flat_extrapolation yfAct360 0 spotEURUSD [180, 360]
    [30, 50] cWitness 2 cWitness_ok
    (by norm_num [cWitness])

/-- C3 counterexample.  On the one-node Actual/360 curve (max time 1, no
extrapolation enabled), a query at time 2 with `extrapolate = false` makes
`forwardPoints` fail with the range error, but `forwardExchangeRate` — which
never calls `checkRange` and ignores its `extrapolate` argument — succeeds
and returns the flat-extrapolated rate with 50 forward points, contradicting
the claim that both queries fail. -/
theorem forwardExchangeRate_skips_range_check :
    fxInitialize yfAct360 0 spotEURUSD [360] [50] = .ok c360 ∧
    c360.maxTime = 1 ∧
    c360.forwardPoints 2 false = .error "time is past max curve time" ∧
    c360.forwardExchangeRate 2 false = .ok (ForwardExchangeRate.make spotEURUSD 50 0) := by
  refine ⟨c360_ok, by norm_num [c360, InterpolatedFxCurve.maxTime], ?_, ?_⟩
  · norm_num [c360, InterpolatedFxCurve.forwardPoints,
      InterpolatedFxCurve.checkRange, InterpolatedFxCurve.maxTime]
  · norm_num [c360, InterpolatedFxCurve.forwardExchangeRate,
      InterpolatedFxCurve.forwardPointsImpl]

/-- C3 as amended.  For any curve with extrapolation disabled and any
nonnegative time strictly past the max time, `forwardPoints(t, false)` fails
with the range error while `forwardExchangeRate(t, false)` performs no range
check and succeeds, returning the spot rate paired with the (flat-
extrapolated) internal forward points. -/
theorem forward_queries_past_max (c : InterpolatedFxCurve) (t : ℚ)
    (h0 : 0 ≤ t) (hpast : c.maxTime < t)
    (hflag : c.extrapolationAllowed = false) :
    c.forwardPoints t false = .error "time is past max curve time" ∧
    c.forwardExchangeRate t false =
      .ok (ForwardExchangeRate.make c.spotExchangeRate (c.forwardPointsImpl t) 0) := by
  constructor
  · simp only [InterpolatedFxCurve.forwardPoints, InterpolatedFxCurve.checkRange]
    rw [if_neg (not_lt.mpr h0), if_pos (by simp [hflag, hpast])]
  · rfl

/-- Witness for the amended claim C3 at the concrete one-node curve and
time 2. -/
theorem forward_queries_past_max_witness :
    c360.forwardPoints 2 false = .error "time is past max curve time" ∧
    c360.forwardExchangeRate 2 false =
      .ok (ForwardExchangeRate.make c360.spotExchangeRate
        (c360.forwardPointsImpl 2) 0) :=
  forward_queries_past_max c360 2 (by norm_num)
    (by norm_num [c360, InterpolatedFxCurve.maxTime]) rfl

/-- C4 counterexample.  The `OvernightIndexFutureRateHelper` constructor
accepts a maturity date equal to the value date — nothing is rejected — and
the resulting helper violates `latestDate() > earliestDate()`. -/
theorem helper_equal_dates_accepted :
    (mkOvernightIndexFutureRateHelper 97 44000 44000).earliestDate = 44000 ∧
    (mkOvernightIndexFutureRateHelper 97 44000 44000).latestDate = 44000 ∧
    ¬ (mkOvernightIndexFutureRateHelper 97 44000 44000).earliestDate <
        (mkOvernightIndexFutureRateHelper 97 44000 44000).latestDate := by
  exact ⟨rfl, rfl, by simp [mkOvernightIndexFutureRateHelper]⟩

/-- C4 as amended.  The constructor stores `valueDate` as `earliestDate_` and
`maturityDate` as `latestDate_` without validation, so the invariant
`latestDate() > earliestDate()` holds exactly when the given maturity date is
strictly after the given value date. -/
theorem helper_dates_stored (p : ℚ) (v m : ℤ) :
    (mkOvernightIndexFutureRateHelper p v m).earliestDate = v ∧
    (mkOvernightIndexFutureRateHelper p v m).latestDate = m ∧
    (v < m → (mkOvernightIndexFutureRateHelper p v m).earliestDate <
      (mkOvernightIndexFutureRateHelper p v m).latestDate) :=
  ⟨rfl, rfl, fun h => h⟩

/-- Witness for the amended claim C4: value date 0, maturity 30. -/
theorem helper_dates_stored_witness :
    (mkOvernightIndexFutureRateHelper 1 0 30).earliestDate <
      (mkOvernightIndexFutureRateHelper 1 0 30).latestDate :=
  (helper_dates_stored 1 0 30).2.2 (by norm_num)

/-- C9.  Every successfully constructed `ForeignExchangeForward` stores a
contract all-in rate whose source currency is the base notional's currency
(the constructor inverts a rate given the other way around), so
`arguments::validate` is satisfied; and construction fails when the base
notional's currency matches neither leg of the given rate (the
`termNotionalAmount_` member initializer already fails to exchange). -/
theorem fxforward_base_is_rate_source (d : ℤ) (base : Money)
    (rate : ExchangeRate) :
    (∀ f : ForeignExchangeForward,
      mkForeignExchangeForward d base rate = .ok f →
      f.contractAllInRate.source = base.currency ∧
      f.argumentsValidate = .ok ()) ∧
    (base.currency ≠ rate.source → base.currency ≠ rate.target →
      mkForeignExchangeForward d base rate = .error "exchange rate not applicable") := by
  constructor
  · intro f hok
    unfold mkForeignExchangeForward ExchangeRate.exchange at hok
    by_cases h1 : base.currency = rate.source
    · simp only [if_pos h1] at hok
      rw [if_pos (Or.inl h1)] at hok
      simp only [Except.ok.injEq] at hok
      subst hok
      simp [ForeignExchangeForward.argumentsValidate, if_pos h1, h1]
    · by_cases h2 : base.currency = rate.target
      · simp only [if_neg h1, if_pos h2] at hok
        rw [if_pos (Or.inr h2)] at hok
        simp only [Except.ok.injEq] at hok
        subst hok
        simp [ForeignExchangeForward.argumentsValidate, ExchangeRate.inverse,
          if_neg h1, h1, h2]
      · simp [if_neg h1, if_neg h2] at hok
  · intro h1 h2
    unfold mkForeignExchangeForward ExchangeRate.exchange
    simp [if_neg h1, if_neg h2]

/-- Witness for C9: 1,000,000 USD base notional against the EUR→USD 1.25
all-in rate — the base currency is the target leg of the rate, so the stored contract
rate is the inverse USD→EUR 0.8, whose source is the base currency USD. -/
theorem fxforward_base_is_rate_source_witness :
    mkForeignExchangeForward 30 { value := 1000000, currency := "USD" }
        { source := "EUR", target := "USD", rate := 5/4 } =
      .ok { deliveryDate := 30,
            baseNotionalAmount := { value := 1000000, currency := "USD" },
            termNotionalAmount := { value := 800000, currency := "EUR" },
            termCurrency := "EUR",
            contractAllInRate := { source := "USD", target := "EUR", rate := 4/5 } } ∧
    ({ deliveryDate := 30,
       baseNotionalAmount := { value := 1000000, currency := "USD" },
       termNotionalAmount := { value := 800000, currency := "EUR" },
       termCurrency := "EUR",
       contractAllInRate := { source := "USD", target := "EUR", rate := 4/5 } }
        : ForeignExchangeForward).contractAllInRate.source = "USD" := by
  have hok : mkForeignExchangeForward 30 { value := 1000000, currency := "USD" }
      { source := "EUR", target := "USD", rate := 5/4 } =
      .ok { deliveryDate := 30,
            baseNotionalAmount := { value := 1000000, currency := "USD" },
            termNotionalAmount := { value := 800000, currency := "EUR" },
            termCurrency := "EUR",
            contractAllInRate := { source := "USD", target := "EUR", rate := 4/5 } } := by
    norm_num +decide [mkForeignExchangeForward, ExchangeRate.exchange,
      ExchangeRate.inverse]
  refine ⟨hok, ?_⟩
  exact (fxforward_base_is_rate_source 30 { value := 1000000, currency := "USD" }
    { source := "EUR", target := "USD", rate := 5/4 }).1 _ hok |>.1

end QLSpec
